import Mathlib

/-!
Verification of the LWM2M protocol engine of iotagent-lwm2m-lib.

Shallow embedding of the two source modules:
  * `lib/iotagent-lwm2m-client.js` — registration lifecycle (register,
    update, unregister) and the registration response/error handlers;
  * `lib/services/coapRouter.js` — the CoAP request router (dispatch over a
    route table) and the device-management operations (read, write,
    writeAttributes, discover, execute, remove).

JavaScript values that matter to control flow (truthiness of address
components, argument-position dispatch of callbacks) are modelled with an
explicit `JsVal` type.  Callback-based pipelines are modelled as pure
functions returning `Except`: an `.error` outcome means the async waterfall
aborted before the transport send, so no CoAP request is produced.
Event-driven parts (the register request's `error` / `response` events) are
modelled as a step function over an explicit state recording the
`errorEmitted` flag, router teardown, and the list of completion-callback
invocations.
-/

namespace Lwm2m

/-- A JavaScript value as far as the control flow of this library inspects
it: `undefined`, a string, a number, or a function (identified by a tag). -/
inductive JsVal where
  | undef
  | str (s : String)
  | num (n : Nat)
  | func (tag : Nat)
deriving DecidableEq, Repr

/-- JavaScript truthiness for the values above: `undefined` is falsy, a
string is truthy iff non-empty, a number is truthy iff non-zero, a function
is always truthy. -/
def JsVal.truthy : JsVal → Bool
  | .undef => false
  | .str s => s != ""
  | .num n => n != 0
  | .func _ => true

/-- JavaScript string coercion as used in `'/' + component` path building. -/
def JsVal.display : JsVal → String
  | .undef => "undefined"
  | .str s => s
  | .num n => toString n
  | .func t => "function#" ++ toString t

/-- A CoAP option as seen on a response (`res.options[i]` has `name` and
`value` fields). -/
structure CoapOption where
  name : String
  value : String
deriving DecidableEq, Repr

/-- The request descriptor handed to `coap.request` / `coapUtils.sendRequest`:
host, port, method, pathname, and optional query, payload, options. -/
structure CoapRequest where
  host : String
  port : Nat
  method : String
  pathname : String
  query : Option String
  payload : Option String
  options : List CoapOption
deriving DecidableEq, Repr

/-- A CoAP response as the handlers inspect it: a code string such as
`"2.01"`, the option list, and the payload body. -/
structure CoapResponse where
  code : String
  options : List CoapOption
  payload : String
deriving DecidableEq, Repr

/-- The typed error taxonomy of `lib/errors.js` as used by the engine. -/
inductive LwError where
  | RegistrationFailed (code : String)
  | ServerNotFound (hostPort : String)
  | ObjectNotFound (path : String)
  | ClientError (code : String)
  | UnsupportedAttributes (names : List String)
deriving DecidableEq, Repr

/-- The client-side registration record built by `startListener`: current
host and port of the remote server and the server-assigned location path
(initially the empty string). -/
structure DeviceInformation where
  currentHost : String
  currentPort : Nat
  location : String
deriving DecidableEq, Repr

/-- The slice of `config.client` the registration lifecycle reads:
`lifetime` and `version` (serialized into query strings). -/
structure ClientConfig where
  lifetime : String
  version : String
deriving DecidableEq, Repr

/-! ## Registration lifecycle (`iotagent-lwm2m-client.js`) -/

/-- The option-scanning loop of `createRegisterResponseHandler`:
`for (i...) if (res.options[i].name === 'Location-Path')
deviceInformation.location = res.options[i].value` — each matching option
overwrites the location, so the last one wins. -/
def setLocationFromOptions (loc : String) (opts : List CoapOption) : String :=
  opts.foldl (fun l o => if o.name == "Location-Path" then o.value else l) loc

/-- `createRegisterResponseHandler(deviceInformation, callback)`: on code
`'2.01'` run the Location-Path loop and call back with the (updated) device
information; on any other code call back with `RegistrationFailed(code)`. -/
def createRegisterResponseHandler (di : DeviceInformation) (res : CoapResponse) :
    Except LwError DeviceInformation :=
  if res.code == "2.01" then
    .ok { di with location := setLocationFromOptions di.location res.options }
  else
    .error (.RegistrationFailed res.code)

/-- The request built by `updateRegistration`: method PUT to the recorded
location with `lt`, `lwm2m` and `b=U` query parameters. -/
def updateRegistrationRequest (cfg : ClientConfig) (di : DeviceInformation) :
    CoapRequest :=
  { host := di.currentHost
    port := di.currentPort
    method := "PUT"
    pathname := di.location
    query := some ("lt=" ++ cfg.lifetime ++ "&lwm2m=" ++ cfg.version ++ "&b=U")
    payload := none
    options := [] }

/-- The `response` handler of `updateRegistration`: whatever the response
code, it calls `callback(null, deviceInformation)` with the record
untouched. -/
def updateRegistrationResponse (di : DeviceInformation) (_res : CoapResponse) :
    Except LwError DeviceInformation :=
  .ok di

/-- The request built by `unregister`: method DELETE to the recorded
location, no query. -/
def unregisterRequest (di : DeviceInformation) : CoapRequest :=
  { host := di.currentHost
    port := di.currentPort
    method := "DELETE"
    pathname := di.location
    query := none
    payload := none
    options := [] }

/-! ### Event machine for the in-flight register request

`register` installs two listeners on the outbound request: the `response`
handler (`createRegisterResponseHandler`) and the `error` handler, which
stops the local router and — guarded by the `errorEmitted` flag — reports
`ServerNotFound(host + ':' + port)` at most once. -/

/-- Observable state of one in-flight registration request: the
`errorEmitted` duplicate-delivery flag, whether `coapRouter.stop` has been
called on the local router, and the sequence of completion-callback
invocations so far. -/
structure RegisterState where
  errorEmitted : Bool
  routerStopped : Bool
  callbackCalls : List (Except LwError DeviceInformation)
deriving Repr

/-- State before any event: flag clear, router running, no callback call. -/
def initialRegisterState : RegisterState :=
  { errorEmitted := false, routerStopped := false, callbackCalls := [] }

/-- The events the request emitter can deliver to the two listeners. -/
inductive RegisterEvent where
  | transportError
  | response (res : CoapResponse)

/-- One event delivery.  `transportError`: stop the router, then if
`errorEmitted` is clear, set it and invoke the callback with
`ServerNotFound(host + ':' + port)`.  `response res`: invoke the callback
as `createRegisterResponseHandler` dictates (the response handler neither
reads nor writes `errorEmitted`). -/
def registerStep (host : String) (port : Nat) (di : DeviceInformation)
    (s : RegisterState) (e : RegisterEvent) : RegisterState :=
  match e with
  | .transportError =>
      let s1 := { s with routerStopped := true }
      if s1.errorEmitted then
        s1
      else
        { s1 with
          errorEmitted := true
          callbackCalls := s1.callbackCalls ++
            [.error (.ServerNotFound (host ++ ":" ++ toString port))] }
  | .response res =>
      { s with callbackCalls := s.callbackCalls ++ [createRegisterResponseHandler di res] }

/-- Deliver a sequence of events to the in-flight request. -/
def registerRun (host : String) (port : Nat) (di : DeviceInformation)
    (s : RegisterState) (events : List RegisterEvent) : RegisterState :=
  events.foldl (registerStep host port di) s

/-! ## Request router (`services/coapRouter.js`, router part) -/

/-- A handler table entry: the fixed library handler and the replaceable
user handler.  Handlers are identified by opaque string tags; the dispatch
result records which pair was applied. -/
structure HandlerPair where
  lib : String
  user : String
deriving DecidableEq, Repr

/-- One entry of `serverInfo.routes`: `[method, pattern, operationName]`.
The pattern is the (unanchored) path-matching predicate of the route's
regular expression. -/
structure Route where
  method : String
  pattern : String → Bool
  operation : String

/-- The state of a started router as `dataHandler` reads it: the ordered
route table and the handler table indexed by operation name. -/
structure ServerInfo where
  routes : List Route
  handlers : String → HandlerPair

/-- An inbound request as the dispatch loop inspects it: method and parsed
pathname. -/
structure InboundRequest where
  method : String
  pathname : String
deriving DecidableEq, Repr

/-- What one call of the dispatch closure did: the list of
`handlers[op].lib(req, res, handlers[op].user)` invocations it performed
(recorded as operation name and the handler pair applied), and the direct
response it wrote, if any (code and body of the no-match branch). -/
structure DispatchResult where
  invocations : List (String × HandlerPair)
  response : Option (String × String)
deriving DecidableEq, Repr

/-- The match test of the dispatch loop:
`req.method === route[0] && req.urlObj.pathname.match(route[1])`. -/
def matchesRoute (req : InboundRequest) (r : Route) : Bool :=
  (req.method == r.method) && r.pattern req.pathname

/-- The `for (var i in serverInfo.routes)` loop of `dataHandler`: scan in
order; on the first match invoke the operation's handler pair and return;
if the table is exhausted set `res.code = '4.04'` and end with an empty
body. -/
def scanRoutes (handlers : String → HandlerPair) (req : InboundRequest) :
    List Route → DispatchResult
  | [] => { invocations := [], response := some ("4.04", "") }
  | r :: rest =>
      if matchesRoute req r then
        { invocations := [(r.operation, handlers r.operation)], response := none }
      else
        scanRoutes handlers req rest

/-- `dataHandler(serverInfo)` applied to one inbound request. -/
def dataHandler (si : ServerInfo) (req : InboundRequest) : DispatchResult :=
  scanRoutes si.handlers req si.routes

/-- The path predicate of the client's route table (`loadRoutes`): a
JavaScript unanchored search for `(\/\d+)+`, which succeeds exactly when
some `/` in the pathname is immediately followed by a digit. -/
def numericPathMatch (s : String) : Bool :=
  (s.toList.zip s.toList.tail).any (fun p => p.1 == '/' && p.2.isDigit)

/-! ## Device-management operations (`services/coapRouter.js`, operations part) -/

/-- The request built by `write`'s `createUpdateRequest`: PUT to
`/objectType/objectId/resourceId` with the new value as payload, port
5683. -/
def writeRequest (address : String) (objectType objectId resourceId : String)
    (value : String) : CoapRequest :=
  { host := address
    port := 5683
    method := "PUT"
    pathname := "/" ++ objectType ++ "/" ++ objectId ++ "/" ++ resourceId
    query := none
    payload := some value
    options := [] }

/-- `write`'s `processResponse`: `2.04` succeeds with the payload; `4.04`
fails with `ObjectNotFound('/' + objectType + '/' + objectId)`; anything
else fails with `ClientError(code)`. -/
def writeProcessResponse (objectType objectId : String) (res : CoapResponse) :
    Except LwError String :=
  if res.code == "2.04" then
    .ok res.payload
  else if res.code == "4.04" then
    .error (.ObjectNotFound ("/" ++ objectType ++ "/" ++ objectId))
  else
    .error (.ClientError res.code)

/-- The whitelist of `writeAttributes.createQueryParams`. -/
def validAttributes : List String := ["pmin", "pmax", "gt", "lt", "st", "cancel"]

/-- One iteration of the `for (var i in attributes)` loop: a whitelisted
key appends `name=value&` to the accumulated query, any other key is pushed
onto the error list. -/
def queryParamsStep (acc : String × List String) (a : String × String) :
    String × List String :=
  if validAttributes.contains a.1 then
    (acc.1 ++ a.1 ++ "=" ++ a.2 ++ "&", acc.2)
  else
    (acc.1, acc.2 ++ [a.1])

/-- `writeAttributes.createQueryParams`: fold the loop from `('?', [])`;
a non-empty error list fails with `UnsupportedAttributes(errorList)`,
otherwise the accumulated query string is returned. -/
def createQueryParams (attributes : List (String × String)) :
    Except LwError String :=
  let r := attributes.foldl queryParamsStep ("?", [])
  if r.2 ≠ [] then .error (.UnsupportedAttributes r.2) else .ok r.1

/-- The path-depth selection of `createWriteAttributesRequest`: three
segments when objectType, objectId and resourceId are all truthy, two when
only objectType and objectId are, otherwise one; the query string is
appended to the pathname. -/
def writeAttributesPathname (objectType objectId resourceId : JsVal)
    (query : String) : String :=
  if objectType.truthy && objectId.truthy && resourceId.truthy then
    "/" ++ objectType.display ++ "/" ++ objectId.display ++ "/" ++
      resourceId.display ++ query
  else if objectType.truthy && objectId.truthy then
    "/" ++ objectType.display ++ "/" ++ objectId.display ++ query
  else
    "/" ++ objectType.display ++ query

/-- The `writeAttributes` pipeline up to the transport send: validate the
attribute map, then build the PUT request; an `.error` outcome aborts the
waterfall before `coapUtils.sendRequest`, so no request is produced. -/
def writeAttributes (address : String) (objectType objectId resourceId : JsVal)
    (attributes : List (String × String)) : Except LwError CoapRequest :=
  match createQueryParams attributes with
  | .error e => .error e
  | .ok q =>
      .ok { host := address
            port := 5683
            method := "PUT"
            pathname := writeAttributesPathname objectType objectId resourceId q
            query := none
            payload := none
            options := [] }

/-- The `discover` pipeline up to the transport send.  The pathname and the
real completion callback are selected by argument truthiness exactly as in
the source (`objectId && resourceId && fullCallback`, then
`objectId && resourceId`, then the object-only fallback); when all three
address components are falsy the call only logs an error and sends nothing
(`none`).  Otherwise the produced GET request carries the
`Accept: application/link-format` option. -/
def discover (address : String) (objectType objectId resourceId fullCallback : JsVal) :
    Option (CoapRequest × JsVal) :=
  let pathname :=
    if objectId.truthy && resourceId.truthy && fullCallback.truthy then
      "/" ++ objectType.display ++ "/" ++ objectId.display ++ "/" ++ resourceId.display
    else if objectId.truthy && resourceId.truthy then
      "/" ++ objectType.display ++ "/" ++ objectId.display
    else
      "/" ++ objectType.display
  let trueCallback :=
    if objectId.truthy && resourceId.truthy && fullCallback.truthy then fullCallback
    else if objectId.truthy && resourceId.truthy then resourceId
    else objectId
  if !objectType.truthy && !objectId.truthy && !resourceId.truthy then
    none
  else
    some ({ host := address
            port := 5683
            method := "GET"
            pathname := pathname
            query := none
            payload := none
            options := [⟨"Accept", "application/link-format"⟩] }, trueCallback)

/-- What a placeholder operation did when called with a JavaScript argument
list: which argument value it invoked as its callback, the error value it
passed to it (`none` models JavaScript `null`), and the CoAP request it
sent (`none`: these stubs never touch the transport). -/
structure StubResult where
  invokedCallback : JsVal
  errorArg : Option LwError
  request : Option CoapRequest
deriving DecidableEq, Repr

/-- `function execute(callback) { callback(null); }` applied to an argument
list: the parameter `callback` binds the first argument (extra arguments
are ignored, a missing one is `undefined`), and it is invoked with `null`;
no request is sent. -/
def execute (args : List JsVal) : StubResult :=
  { invokedCallback := args.getD 0 .undef
    errorArg := none
    request := none }

/-- `function remove(deviceId, objectType, objectId, callback)
{ callback(null); }` applied to an argument list: the parameter `callback`
binds the fourth argument and is invoked with `null`; no request is
sent. -/
def remove (args : List JsVal) : StubResult :=
  { invokedCallback := args.getD 3 .undef
    errorArg := none
    request := none }

/-! ## Helper lemmas -/

/-- The Location-Path loop computes the value of the last matching option,
falling back to the incoming location when no option matches. -/
theorem setLocationFromOptions_eq_getLastD (opts : List CoapOption) (loc : String) :
    setLocationFromOptions loc opts =
      ((opts.filter fun o => o.name == "Location-Path").map CoapOption.value).getLastD
        loc := by
  induction opts generalizing loc with
  | nil => rfl
  | cons o t ih =>
      cases h : (o.name == "Location-Path") with
      | true =>
          have h2 : o.name = "Location-Path" := by simpa using h
          have hstep : setLocationFromOptions loc (o :: t) =
              setLocationFromOptions o.value t := by
            simp [setLocationFromOptions, h2]
          have hf : List.filter (fun o => o.name == "Location-Path") (o :: t) =
              o :: List.filter (fun o => o.name == "Location-Path") t := by
            simp [List.filter_cons, h2]
          rw [hstep, ih, hf, List.map_cons, List.getLastD_cons]
      | false =>
          have h2 : ¬ o.name = "Location-Path" := by simpa using h
          have hstep : setLocationFromOptions loc (o :: t) =
              setLocationFromOptions loc t := by
            simp [setLocationFromOptions, h2]
          have hf : List.filter (fun o => o.name == "Location-Path") (o :: t) =
              List.filter (fun o => o.name == "Location-Path") t := by
            simp [List.filter_cons, h2]
          rw [hstep, ih, hf]

/-- Folding string concatenation distributes over the seed. -/
theorem string_foldl_append (l : List String) (a b : String) :
    l.foldl (fun r s => r ++ s) (a ++ b) = a ++ l.foldl (fun r s => r ++ s) b := by
  induction l generalizing b with
  | nil => rfl
  | cons x t ih =>
      simp only [List.foldl_cons]
      rw [String.append_assoc]
      exact ih (b ++ x)

/-- `String.join` peels off its head element. -/
theorem string_join_cons (s : String) (l : List String) :
    String.join (s :: l) = s ++ String.join l := by
  show l.foldl (fun r t => r ++ t) ("" ++ s) = s ++ String.join l
  rw [String.empty_append]
  calc l.foldl (fun r t => r ++ t) s
      = l.foldl (fun r t => r ++ t) (s ++ "") := by rw [String.append_empty]
    _ = s ++ l.foldl (fun r t => r ++ t) "" := string_foldl_append l s ""

/-- Closed form of the `createQueryParams` fold: the accumulated query
string extends the seed with `name=value&` for each whitelisted attribute,
and the error list extends the seed with the key of each non-whitelisted
attribute, both in iteration order. -/
theorem queryParams_foldl (attributes : List (String × String)) (s : String)
    (l : List String) :
    attributes.foldl queryParamsStep (s, l) =
      (s ++ String.join
          (((attributes.filter fun a => validAttributes.contains a.1).map
            fun a => a.1 ++ "=" ++ a.2 ++ "&")),
        l ++ (attributes.filter fun a => !validAttributes.contains a.1).map
          Prod.fst) := by
  induction attributes generalizing s l with
  | nil => simp [String.join]
  | cons a t ih =>
      cases h : validAttributes.contains a.1 with
      | true =>
          have h2 : a.1 ∈ validAttributes := by simpa using h
          have hstep : (a :: t).foldl queryParamsStep (s, l) =
              t.foldl queryParamsStep (s ++ a.1 ++ "=" ++ a.2 ++ "&", l) := by
            simp [queryParamsStep, h2]
          have hf1 : List.filter (fun a => validAttributes.contains a.1) (a :: t) =
              a :: List.filter (fun a => validAttributes.contains a.1) t := by
            simp [List.filter_cons, h2]
          have hf2 : List.filter (fun a => !validAttributes.contains a.1) (a :: t) =
              List.filter (fun a => !validAttributes.contains a.1) t := by
            simp [List.filter_cons, h2]
          rw [hstep, ih, hf1, hf2, List.map_cons, string_join_cons]
          simp [String.append_assoc]
      | false =>
          have h2 : ¬ a.1 ∈ validAttributes := by simpa using h
          have hstep : (a :: t).foldl queryParamsStep (s, l) =
              t.foldl queryParamsStep (s, l ++ [a.1]) := by
            simp [queryParamsStep, h2]
          have hf1 : List.filter (fun a => validAttributes.contains a.1) (a :: t) =
              List.filter (fun a => validAttributes.contains a.1) t := by
            simp [List.filter_cons, h2]
          have hf2 : List.filter (fun a => !validAttributes.contains a.1) (a :: t) =
              a :: List.filter (fun a => !validAttributes.contains a.1) t := by
            simp [List.filter_cons, h2]
          rw [hstep, ih, hf1, hf2, List.map_cons]
          simp

/-- Scanning skips any prefix of routes that do not match the request. -/
theorem scanRoutes_append_no_match (handlers : String → HandlerPair)
    (req : InboundRequest) (pre rest : List Route)
    (hpre : ∀ p ∈ pre, matchesRoute req p = false) :
    scanRoutes handlers req (pre ++ rest) = scanRoutes handlers req rest := by
  induction pre with
  | nil => rfl
  | cons p t ih =>
      have hp := hpre p (List.mem_cons_self p t)
      have hstep : scanRoutes handlers req (p :: (t ++ rest)) =
          scanRoutes handlers req (t ++ rest) := by
        simp [scanRoutes, hp]
      rw [List.cons_append, hstep]
      exact ih fun q hq => hpre q (List.mem_cons_of_mem p hq)

/-! ## Claim theorems -/

/-- C1: Registration round-trip — a 2.01 registration response whose
Location-Path option has value `V` makes the resulting
`DeviceInformation.location` equal `V`, and the update and unregister
requests built from that record both use exactly `V` as their request
pathname. -/
theorem registration_roundtrip (cfg : ClientConfig) (di : DeviceInformation)
    (res : CoapResponse) (V : String)
    (hcode : res.code = "2.01")
    (hopt : res.options.filter (fun o => o.name == "Location-Path") =
      [{ name := "Location-Path", value := V }]) :
    ∃ di2, createRegisterResponseHandler di res = .ok di2 ∧
      di2.location = V ∧
      (updateRegistrationRequest cfg di2).pathname = V ∧
      (unregisterRequest di2).pathname = V := by
  have hloc : setLocationFromOptions di.location res.options = V := by
    rw [setLocationFromOptions_eq_getLastD, hopt]
    rfl
  refine ⟨{ di with location := setLocationFromOptions di.location res.options },
    ?_, hloc, ?_, ?_⟩
  · simp [createRegisterResponseHandler, hcode]
  · show setLocationFromOptions di.location res.options = V
    exact hloc
  · show setLocationFromOptions di.location res.options = V
    exact hloc

/-- Witness for C1 at a concrete 2.01 response carrying
Location-Path `/rd/1`. -/
theorem registration_roundtrip_witness :
    ∃ di2, createRegisterResponseHandler ⟨"localhost", 5684, ""⟩
        ⟨"2.01", [⟨"Location-Path", "/rd/1"⟩], ""⟩ = .ok di2 ∧
      di2.location = "/rd/1" ∧
      (updateRegistrationRequest ⟨"86400", "1.0"⟩ di2).pathname = "/rd/1" ∧
      (unregisterRequest di2).pathname = "/rd/1" :=
  registration_roundtrip ⟨"86400", "1.0"⟩ ⟨"localhost", 5684, ""⟩
    ⟨"2.01", [⟨"Location-Path", "/rd/1"⟩], ""⟩ "/rd/1" rfl (by decide)

/-- C9: on a 2.01 response the recorded location is the value of the last
Location-Path option of the option list; if the response carries no
Location-Path option at all, the callback still reports success and the
location stays at its initial empty string. -/
theorem register_location_last_option (di : DeviceInformation)
    (res : CoapResponse) (hcode : res.code = "2.01") :
    ∃ di2, createRegisterResponseHandler di res = .ok di2 ∧
      di2.location =
        ((res.options.filter fun o => o.name == "Location-Path").map
          CoapOption.value).getLastD di.location ∧
      ((res.options.filter fun o => o.name == "Location-Path") = [] →
        di.location = "" → di2.location = "") := by
  refine ⟨{ di with location := setLocationFromOptions di.location res.options },
    ?_, ?_, ?_⟩
  · simp [createRegisterResponseHandler, hcode]
  · exact setLocationFromOptions_eq_getLastD res.options di.location
  · intro hnone hini
    show setLocationFromOptions di.location res.options = ""
    rw [setLocationFromOptions_eq_getLastD, hnone, hini]
    rfl

/-- Witness for C9 at a concrete 2.01 response with two Location-Path
options (the last one wins) and at one with no Location-Path option. -/
theorem register_location_last_option_witness :
    (∃ di2, createRegisterResponseHandler ⟨"localhost", 5684, ""⟩
        ⟨"2.01", [⟨"Location-Path", "/rd/1"⟩, ⟨"Location-Path", "/rd/2"⟩], ""⟩ =
          .ok di2 ∧
      di2.location =
        (((([⟨"Location-Path", "/rd/1"⟩, ⟨"Location-Path", "/rd/2"⟩] :
            List CoapOption).filter fun o => o.name == "Location-Path").map
          CoapOption.value).getLastD "") ∧
      ((([⟨"Location-Path", "/rd/1"⟩, ⟨"Location-Path", "/rd/2"⟩] :
            List CoapOption).filter fun o => o.name == "Location-Path") = [] →
        ("" : String) = "" → di2.location = "")) ∧
    (∃ di2, createRegisterResponseHandler ⟨"localhost", 5684, ""⟩
        ⟨"2.01", [⟨"Content-Format", "0"⟩], ""⟩ = .ok di2 ∧
      di2.location =
        (((([⟨"Content-Format", "0"⟩] :
            List CoapOption).filter fun o => o.name == "Location-Path").map
          CoapOption.value).getLastD "") ∧
      ((([⟨"Content-Format", "0"⟩] :
            List CoapOption).filter fun o => o.name == "Location-Path") = [] →
        ("" : String) = "" → di2.location = "")) :=
  ⟨register_location_last_option ⟨"localhost", 5684, ""⟩
      ⟨"2.01", [⟨"Location-Path", "/rd/1"⟩, ⟨"Location-Path", "/rd/2"⟩], ""⟩ rfl,
    register_location_last_option ⟨"localhost", 5684, ""⟩
      ⟨"2.01", [⟨"Content-Format", "0"⟩], ""⟩ rfl⟩

/-- C5: two consecutive transport-error events for one in-flight
registration request invoke the completion callback exactly once, with
`ServerNotFound(host:port)`, and the error tears the local router down. -/
theorem register_error_at_most_once (host : String) (port : Nat)
    (di : DeviceInformation) :
    (registerRun host port di initialRegisterState
        [.transportError, .transportError]).callbackCalls =
      [.error (.ServerNotFound (host ++ ":" ++ toString port))] ∧
    (registerRun host port di initialRegisterState
        [.transportError, .transportError]).routerStopped = true :=
  ⟨rfl, rfl⟩

/-- C10: the duplicate-delivery guard covers only transport-error events —
an error event followed by a response event invokes the completion
callback twice: once with `ServerNotFound`, once with whatever the
response handler produces. -/
theorem register_error_then_response_double (host : String) (port : Nat)
    (di : DeviceInformation) (res : CoapResponse) :
    (registerRun host port di initialRegisterState
        [.transportError, .response res]).callbackCalls =
      [.error (.ServerNotFound (host ++ ":" ++ toString port)),
        createRegisterResponseHandler di res] :=
  rfl

/-- C7: `update` sends a PUT to the previously recorded location with
lifetime, version and binding query parameters, and on any response code
invokes its callback with success and the unchanged deviceInformation. -/
theorem update_registration_spec (cfg : ClientConfig) (di : DeviceInformation)
    (res : CoapResponse) :
    updateRegistrationResponse di res = .ok di ∧
    (updateRegistrationRequest cfg di).method = "PUT" ∧
    (updateRegistrationRequest cfg di).pathname = di.location ∧
    (updateRegistrationRequest cfg di).query =
      some ("lt=" ++ cfg.lifetime ++ "&lwm2m=" ++ cfg.version ++ "&b=U") :=
  ⟨rfl, rfl, rfl, rfl⟩

/-- C2: writeAttributes validation — any key outside
{pmin, pmax, gt, lt, st, cancel} makes the operation fail with
`UnsupportedAttributes` carrying the complete list of offending keys and
produces no request; when every key is whitelisted, the built query string
is `?` followed by `name=value&` per attribute and the request is
produced. -/
theorem writeAttributes_validation (address : String)
    (objectType objectId resourceId : JsVal)
    (attributes : List (String × String)) :
    ((∃ a ∈ attributes, validAttributes.contains a.1 = false) →
      writeAttributes address objectType objectId resourceId attributes =
        .error (.UnsupportedAttributes
          ((attributes.filter fun a => !validAttributes.contains a.1).map
            Prod.fst))) ∧
    ((∀ a ∈ attributes, validAttributes.contains a.1 = true) →
      createQueryParams attributes =
        .ok ("?" ++ String.join (attributes.map fun a => a.1 ++ "=" ++ a.2 ++ "&")) ∧
      ∃ req, writeAttributes address objectType objectId resourceId attributes =
        .ok req ∧
        req.pathname = writeAttributesPathname objectType objectId resourceId
          ("?" ++ String.join (attributes.map fun a => a.1 ++ "=" ++ a.2 ++ "&"))) := by
  constructor
  · intro hbad
    have hne : (attributes.filter fun a => !validAttributes.contains a.1) ≠ [] := by
      rcases hbad with ⟨a, ha, hk⟩
      intro hnil
      rw [List.filter_eq_nil_iff] at hnil
      exact hnil a ha (by rw [hk]; rfl)
    have hq : createQueryParams attributes =
        .error (.UnsupportedAttributes
          ((attributes.filter fun a => !validAttributes.contains a.1).map
            Prod.fst)) := by
      unfold createQueryParams
      rw [queryParams_foldl]
      simp only [List.nil_append]
      rw [if_pos (by simpa using hne)]
    simp [writeAttributes, hq]
  · intro hgood
    have hfv : attributes.filter (fun a => validAttributes.contains a.1) =
        attributes :=
      List.filter_eq_self.mpr fun a ha => by simpa using hgood a ha
    have hfi : attributes.filter (fun a => !validAttributes.contains a.1) = [] := by
      rw [List.filter_eq_nil_iff]
      intro a ha
      simpa using hgood a ha
    have hq : createQueryParams attributes =
        .ok ("?" ++ String.join (attributes.map fun a => a.1 ++ "=" ++ a.2 ++ "&")) := by
      unfold createQueryParams
      rw [queryParams_foldl, hfv, hfi]
      simp
    refine ⟨hq, ?_⟩
    unfold writeAttributes
    rw [hq]
    exact ⟨_, rfl, rfl⟩

/-- Witness for C2: a map with the unknown keys `foo` and `bar` fails with
both names and produces no request; a fully-whitelisted map builds the
expected query string. -/
theorem writeAttributes_validation_witness :
    writeAttributes "10.0.0.5" (.num 6) (.num 0) .undef
        [("pmin", "5"), ("foo", "1"), ("bar", "2")] =
      .error (.UnsupportedAttributes ["foo", "bar"]) ∧
    createQueryParams [("pmin", "5"), ("pmax", "10")] = .ok "?pmin=5&pmax=10&" := by
  constructor
  · have h := (writeAttributes_validation "10.0.0.5" (.num 6) (.num 0) .undef
      [("pmin", "5"), ("foo", "1"), ("bar", "2")]).1 (by decide)
    simpa using h
  · have h := ((writeAttributes_validation "10.0.0.5" (.num 6) (.num 0) .undef
      [("pmin", "5"), ("pmax", "10")]).2 (by decide)).1
    simpa using h

/-- C3: router dispatch — the route table is scanned in registration
order; the first route matching method and path has its operation's
handler pair invoked exactly once, with scanning stopped; when no route
matches, the response is a 4.04 with an empty body. -/
theorem router_dispatch (handlers : String → HandlerPair) (req : InboundRequest) :
    (∀ pre r post, (∀ p ∈ pre, matchesRoute req p = false) →
      matchesRoute req r = true →
      dataHandler ⟨pre ++ r :: post, handlers⟩ req =
        { invocations := [(r.operation, handlers r.operation)], response := none }) ∧
    (∀ routes, (∀ p ∈ routes, matchesRoute req p = false) →
      dataHandler ⟨routes, handlers⟩ req =
        { invocations := [], response := some ("4.04", "") }) := by
  constructor
  · intro pre r post hpre hr
    show scanRoutes handlers req (pre ++ r :: post) = _
    rw [scanRoutes_append_no_match handlers req pre (r :: post) hpre]
    simp [scanRoutes, hr]
  · intro routes hnone
    show scanRoutes handlers req routes = _
    rw [← List.append_nil routes,
      scanRoutes_append_no_match handlers req routes [] hnone]
    rfl

/-- Witness for C3 on the client's route table shape: a GET on `/3/0/1`
is dispatched to the `read` handler pair (skipping the non-matching PUT
route), while a POST matches no route and yields a 4.04 with empty
body. -/
theorem router_dispatch_witness :
    dataHandler ⟨[⟨"PUT", numericPathMatch, "write"⟩,
        ⟨"GET", numericPathMatch, "read"⟩],
        fun op => ⟨"lib:" ++ op, "user:" ++ op⟩⟩ ⟨"GET", "/3/0/1"⟩ =
      { invocations := [("read", ⟨"lib:read", "user:read"⟩)], response := none } ∧
    dataHandler ⟨[⟨"PUT", numericPathMatch, "write"⟩,
        ⟨"GET", numericPathMatch, "read"⟩],
        fun op => ⟨"lib:" ++ op, "user:" ++ op⟩⟩ ⟨"POST", "/3/0/1"⟩ =
      { invocations := [], response := some ("4.04", "") } := by
  constructor
  · exact (router_dispatch (fun op => ⟨"lib:" ++ op, "user:" ++ op⟩)
      ⟨"GET", "/3/0/1"⟩).1 [⟨"PUT", numericPathMatch, "write"⟩]
      ⟨"GET", numericPathMatch, "read"⟩ [] (by decide) (by decide)
  · exact (router_dispatch (fun op => ⟨"lib:" ++ op, "user:" ++ op⟩)
      ⟨"POST", "/3/0/1"⟩).2 [⟨"PUT", numericPathMatch, "write"⟩,
      ⟨"GET", numericPathMatch, "read"⟩] (by decide)

/-- C4 counterexample: a write on `/3/0/1` answered with 4.04 yields
`ObjectNotFound("/3/0")`, not an error carrying the targeted pathname
`/3/0/1` — the resource segment is dropped. -/
theorem write_objectNotFound_counterexample :
    ¬ (writeProcessResponse "3" "0" ⟨"4.04", [], ""⟩ =
        .error (.ObjectNotFound
          (writeRequest "10.0.0.5" "3" "0" "1" "20").pathname)) := by
  intro h
  have h1 : writeProcessResponse "3" "0" ⟨"4.04", [], ""⟩ =
      .error (.ObjectNotFound "/3/0") := rfl
  have h2 : (writeRequest "10.0.0.5" "3" "0" "1" "20").pathname = "/3/0/1" := rfl
  rw [h1, h2] at h
  simp at h

/-- C4 amended: the write request targets `/type/instance/resource`; a
2.04 response succeeds with the payload; a 4.04 yields `ObjectNotFound`
carrying the object-instance path `/type/instance` (without the resource
segment); any other code yields `ClientError` with the received code. -/
theorem write_response_mapping (address objectType objectId resourceId value : String)
    (res : CoapResponse) :
    (writeRequest address objectType objectId resourceId value).pathname =
      "/" ++ objectType ++ "/" ++ objectId ++ "/" ++ resourceId ∧
    (res.code = "2.04" → writeProcessResponse objectType objectId res = .ok res.payload) ∧
    (res.code = "4.04" →
      writeProcessResponse objectType objectId res =
        .error (.ObjectNotFound ("/" ++ objectType ++ "/" ++ objectId))) ∧
    (res.code ≠ "2.04" → res.code ≠ "4.04" →
      writeProcessResponse objectType objectId res = .error (.ClientError res.code)) := by
  refine ⟨rfl, ?_, ?_, ?_⟩
  · intro h
    simp [writeProcessResponse, h]
  · intro h
    simp [writeProcessResponse, h]
  · intro h1 h2
    simp [writeProcessResponse, h1, h2]

/-- Witness for C4 (amended) at concrete responses with codes 2.04, 4.04
and 5.00. -/
theorem write_response_mapping_witness :
    (writeRequest "10.0.0.5" "3" "0" "1" "20").pathname = "/3/0/1" ∧
    writeProcessResponse "3" "0" ⟨"2.04", [], "20"⟩ = .ok "20" ∧
    writeProcessResponse "3" "0" ⟨"4.04", [], ""⟩ = .error (.ObjectNotFound "/3/0") ∧
    writeProcessResponse "3" "0" ⟨"5.00", [], ""⟩ = .error (.ClientError "5.00") := by
  refine ⟨?_, ?_, ?_, ?_⟩
  · exact (write_response_mapping "10.0.0.5" "3" "0" "1" "20" ⟨"2.04", [], ""⟩).1
  · exact (write_response_mapping "10.0.0.5" "3" "0" "1" "20" ⟨"2.04", [], "20"⟩).2.1 rfl
  · exact (write_response_mapping "10.0.0.5" "3" "0" "1" "20" ⟨"4.04", [], ""⟩).2.2.1 rfl
  · exact (write_response_mapping "10.0.0.5" "3" "0" "1" "20"
      ⟨"5.00", [], ""⟩).2.2.2 (by decide) (by decide)

/-- C6: discover arity dispatch — the number of truthy address components
determines the path depth and which trailing argument is taken as the real
completion callback; an object-only `discover(deviceId, 3)` issues a GET
on `/3` with an `Accept: application/link-format` option. -/
theorem discover_arity (address : String) (t i r : String) (cb : Nat)
    (ht : t ≠ "") (hi : i ≠ "") (hr : r ≠ "") :
    discover address (.str t) (.str i) (.str r) (.func cb) =
      some ({ host := address, port := 5683, method := "GET",
                pathname := "/" ++ t ++ "/" ++ i ++ "/" ++ r, query := none,
                payload := none,
                options := [⟨"Accept", "application/link-format"⟩] }, .func cb) ∧
    discover address (.str t) (.str i) (.func cb) .undef =
      some ({ host := address, port := 5683, method := "GET",
                pathname := "/" ++ t ++ "/" ++ i, query := none,
                payload := none,
                options := [⟨"Accept", "application/link-format"⟩] }, .func cb) ∧
    discover address (.str t) (.func cb) .undef .undef =
      some ({ host := address, port := 5683, method := "GET",
                pathname := "/" ++ t, query := none, payload := none,
                options := [⟨"Accept", "application/link-format"⟩] }, .func cb) ∧
    discover address (.num 3) .undef .undef .undef =
      some ({ host := address, port := 5683, method := "GET",
                pathname := "/3", query := none, payload := none,
                options := [⟨"Accept", "application/link-format"⟩] }, .undef) := by
  have hti : JsVal.truthy (.str t) = true := by simp [JsVal.truthy, ht]
  have hii : JsVal.truthy (.str i) = true := by simp [JsVal.truthy, hi]
  have hri : JsVal.truthy (.str r) = true := by simp [JsVal.truthy, hr]
  refine ⟨?_, ?_, ?_, rfl⟩
  · simp [discover, hti, hii, hri, JsVal.truthy, JsVal.display, ht, hi, hr]
  · simp [discover, hti, hii, hri, JsVal.truthy, JsVal.display, ht, hi, hr]
  · simp [discover, hti, hii, hri, JsVal.truthy, JsVal.display, ht, hi, hr]

/-- Witness for C6 at concrete components `3`, `0`, `1` and callback tag
7. -/
theorem discover_arity_witness :
    discover "10.0.0.5" (.str "3") (.str "0") (.str "1") (.func 7) =
      some ({ host := "10.0.0.5", port := 5683, method := "GET",
                pathname := "/" ++ "3" ++ "/" ++ "0" ++ "/" ++ "1", query := none,
                payload := none,
                options := [⟨"Accept", "application/link-format"⟩] }, .func 7) ∧
    discover "10.0.0.5" (.str "3") (.str "0") (.func 7) .undef =
      some ({ host := "10.0.0.5", port := 5683, method := "GET",
                pathname := "/" ++ "3" ++ "/" ++ "0", query := none,
                payload := none,
                options := [⟨"Accept", "application/link-format"⟩] }, .func 7) ∧
    discover "10.0.0.5" (.str "3") (.func 7) .undef .undef =
      some ({ host := "10.0.0.5", port := 5683, method := "GET",
                pathname := "/" ++ "3", query := none, payload := none,
                options := [⟨"Accept", "application/link-format"⟩] }, .func 7) ∧
    discover "10.0.0.5" (.num 3) .undef .undef .undef =
      some ({ host := "10.0.0.5", port := 5683, method := "GET",
                pathname := "/3", query := none, payload := none,
                options := [⟨"Accept", "application/link-format"⟩] }, .undef) :=
  discover_arity "10.0.0.5" "3" "0" "1" 7 (by decide) (by decide) (by decide)

/-- C8 counterexample: calling `execute` uniformly with a leading device
id, address components and a trailing callback does not invoke the
trailing callback — `execute` declares a single parameter, so it invokes
its first argument. -/
theorem execute_signature_counterexample :
    ¬ ((execute [.str "device1", .num 3, .num 0, .func 7]).invokedCallback =
        .func 7) := by
  decide

/-- C8 amended: `remove` accepts `(deviceId, objectType, objectId,
callback)` and invokes the trailing callback with no error and no request;
`execute` declares a single parameter, invoking its first argument as the
callback with no error and no request — so a uniform call hands the
device id, not the trailing callback, to the invocation. -/
theorem execute_remove_stub_shapes (d t i cb : JsVal) :
    remove [d, t, i, cb] = { invokedCallback := cb, errorArg := none, request := none } ∧
    execute [cb] = { invokedCallback := cb, errorArg := none, request := none } ∧
    execute [d, t, i, cb] = { invokedCallback := d, errorArg := none, request := none } :=
  ⟨rfl, rfl, rfl⟩

end Lwm2m
